import Mathlib

/-!
Shallow embedding of `src-tauri/src/main.rs` of the kintai-app tray utility.

The program keeps two shared boolean flags (`is_working`, `is_on_break`),
two tray menu items whose titles and enabled bits are mutated by the click
handlers `handle_attendance` and `handle_break_time`, a timer thread spawned
by `start_timer` that formats an elapsed-seconds counter with
`format_duration`, and a notifier `send_req` that fires one HTTP form POST
per state transition.

Machine integers: `Duration::as_secs()` is a `u64`; the program only ever
divides and takes remainders of it (no overflow is possible in
`format_duration`) and the timer increments one second at a time, so seconds
are modelled as `Nat`.
-/

/-- `{:02}` formatting of a natural number, as Rust's `format!("{:02}", n)`:
the decimal rendering left-padded with zeros to at least two characters. -/
def pad2 (n : Nat) : String :=
  if n < 10 then "0" ++ toString n else toString n

/-- `format_duration` from `main.rs`: splits the duration's whole seconds
into hours, minutes and seconds and renders `hh:mm:ss` with `{:02}` fields. -/
def format_duration (durationSecs : Nat) : String :=
  let hours := durationSecs / 3600
  let minutes := durationSecs % 3600 / 60
  let seconds := durationSecs % 60
  pad2 hours ++ ":" ++ pad2 minutes ++ ":" ++ pad2 seconds

/-- Spec-side rendering of a number as exactly two decimal digits (used to
state the claim that the output is the zero-padded two-digit decomposition);
meaningful for `n < 100`. -/
def twoDigit (n : Nat) : String :=
  String.mk [Nat.digitChar (n / 10), Nat.digitChar (n % 10)]

/-- Spec-side `hh:mm:ss` string: the zero-padded two-digit decomposition of
a second count below 86400. -/
def specHhMmSs (n : Nat) : String :=
  twoDigit (n / 3600) ++ ":" ++ twoDigit (n % 3600 / 60) ++ ":" ++ twoDigit (n % 60)

/-- A network error (the `Err` of the `Result`s returned by `reqwest`). -/
structure NetError where
  message : String
deriving DecidableEq, Repr

/-- An outbound HTTP request as `send_req` builds it: method, URL and the
form body. -/
structure HttpRequest where
  method : String
  url : String
  form : List (String × String)
deriving DecidableEq, Repr

/-- A `reqwest` response, from which `.text()` extracts the body. -/
structure HttpResponse where
  raw : String
deriving DecidableEq, Repr

/-- The environment's behaviour for the two awaited fallible steps of
`send_req`: `send` (posting the request) and `text` (reading the body). -/
structure NetOracle where
  send : HttpRequest → Except NetError HttpResponse
  text : HttpResponse → Except NetError String

/-- Observable outcome of one `send_req` call: the requests it issued, what
it printed to stdout and stderr, and its `Result`. -/
structure SendResult where
  requests : List HttpRequest
  stdoutLines : List String
  stderrLines : List String
  result : Except NetError Unit

/-- The fixed webhook URL hardcoded in `send_req`. -/
def webhookUrl : String :=
  "https://script.google.com/macros/s/AKfycbz2UC1m0PPe_HVHDq0ieQc62AtVUdNSG7-10x4jEKP1iio_yo0Q3mJuSfUS3wXLwX2l0g/exec"

/-- `send_req` from `main.rs`: builds the two-field form body, POSTs it to
the fixed URL, propagates either failure with `?`, and on success prints the
body and the closing marker. -/
def send_req (net : NetOracle) (statu : String) : SendResult :=
  let data := [("name", "多田"), ("status", statu)]
  let url := webhookUrl
  let req : HttpRequest := { method := "POST", url := url, form := data }
  match net.send req with
  | Except.error e => ⟨[req], [], [], Except.error e⟩
  | Except.ok response =>
    match net.text response with
    | Except.error e => ⟨[req], [], [], Except.error e⟩
    | Except.ok body =>
      ⟨[req], ["Response: " ++ body], ["*** 終了 ***"], Except.ok ()⟩

/-- The mutable state the click handlers touch: the two atomic flags, the
titles and enabled bits of the two custom menu items, and the tray title. -/
structure TrayState where
  is_working : Bool
  is_on_break : Bool
  attendanceTitle : String
  breakTitle : String
  attendanceEnabled : Bool
  breakEnabled : Bool
  trayTitle : String
deriving DecidableEq, Repr

/-- State at process start: both flags false, items titled 業務開始 / 休憩,
the break item created `.disabled()`, empty tray title. -/
def initState : TrayState :=
  { is_working := false
    is_on_break := false
    attendanceTitle := "業務開始"
    breakTitle := "休憩"
    attendanceEnabled := true
    breakEnabled := false
    trayTitle := "" }

/-- Observable outcome of one click-handler call: the updated tray state and
the effects of the embedded `send_req` call, plus whether a timer thread was
spawned. -/
structure HandlerResult where
  state : TrayState
  requests : List HttpRequest
  stdoutLines : List String
  stderrLines : List String
  spawnedTimer : Bool

/-- `handle_attendance` from `main.rs`: negates `is_working`, retitles the
attendance item, then either (on start) spawns the timer, enables the break
item and notifies 業務 開始, or (on stop) disables the break item, clears
the tray title and notifies 業務 終了.  The `send_req` result is bound to
`_` and dropped. -/
def handle_attendance (net : NetOracle) (s : TrayState) : HandlerResult :=
  let new_value := !s.is_working
  let s1 := { s with is_working := new_value,
                     attendanceTitle := if new_value then "業務終了" else "業務開始" }
  if new_value then
    let r := send_req net "業務 開始"
    { state := { s1 with breakEnabled := true },
      requests := r.requests, stdoutLines := r.stdoutLines,
      stderrLines := r.stderrLines, spawnedTimer := true }
  else
    let r := send_req net "業務 終了"
    { state := { s1 with breakEnabled := false, trayTitle := "" },
      requests := r.requests, stdoutLines := r.stdoutLines,
      stderrLines := r.stderrLines, spawnedTimer := false }

/-- `handle_break_time` from `main.rs`: negates `is_on_break`, retitles the
break item, then either (break start) sets the tray title to 休憩中,
disables the attendance item and notifies 休憩 開始, or (break end) enables
the attendance item and notifies 休憩 終了.  The `send_req` result is
dropped. -/
def handle_break_time (net : NetOracle) (s : TrayState) : HandlerResult :=
  let new_value := !s.is_on_break
  let s1 := { s with is_on_break := new_value,
                     breakTitle := if new_value then "休憩解除" else "休憩" }
  if new_value then
    let r := send_req net "休憩 開始"
    { state := { s1 with trayTitle := "休憩中", attendanceEnabled := false },
      requests := r.requests, stdoutLines := r.stdoutLines,
      stderrLines := r.stderrLines, spawnedTimer := false }
  else
    let r := send_req net "休憩 終了"
    { state := { s1 with attendanceEnabled := true },
      requests := r.requests, stdoutLines := r.stdoutLines,
      stderrLines := r.stderrLines, spawnedTimer := false }

/-- States reachable from `initState` by clicks on enabled menu items: the
event loop dispatches `MenuItemClick` on "attendance" and "break_time", and
the OS only delivers clicks for an item whose enabled bit is set. -/
inductive Reachable : TrayState → Prop where
  | init : Reachable initState
  | attendanceClick {s : TrayState} (net : NetOracle) :
      Reachable s → s.attendanceEnabled = true →
      Reachable (handle_attendance net s).state
  | breakClick {s : TrayState} (net : NetOracle) :
      Reachable s → s.breakEnabled = true →
      Reachable (handle_break_time net s).state

/-- What one iteration of the timer loop in `start_timer` does, given the
flag values it reads: either it breaks out of the loop, or it polls again —
`slept` records whether the iteration reached the `thread::sleep` call,
`time` is the counter after the iteration and `titleSet` the tray title it
wrote, if any. -/
inductive TimerOutcome where
  | exited
  | polledAgain (slept : Bool) (time : Nat) (titleSet : Option String)
deriving DecidableEq, Repr

/-- One iteration of the `loop` inside `start_timer`: break when
`is_working` is false; `continue` (no sleep, no tick) when `is_on_break`;
otherwise increment the counter, set the tray title to the formatted time,
and sleep one second. -/
def timerIter (is_working is_on_break : Bool) (time : Nat) : TimerOutcome :=
  if !is_working then TimerOutcome.exited
  else if is_on_break then TimerOutcome.polledAgain false time none
  else TimerOutcome.polledAgain true (time + 1) (some (format_duration (time + 1)))

/-- Fuel-bounded run of the timer loop against a schedule `f` giving the
`(is_working, is_on_break)` values read at the loop's `i`-th poll of the
flags; returns `some (j, time)` when the loop breaks at poll `j` with
counter `time`, `none` when the fuel runs out first. -/
def timerRun (f : Nat → Bool × Bool) : Nat → Nat → Nat → Option (Nat × Nat)
  | 0, _, _ => none
  | fuel + 1, i, time =>
    if (f i).1 = false then some (i, time)
    else if (f i).2 = true then timerRun f fuel (i + 1) time
    else timerRun f fuel (i + 1) (time + 1)

/-- `start_timer` from `main.rs`: spawns the loop with its local counter at
`Duration::from_secs(0)`. -/
def start_timer (f : Nat → Bool × Bool) (fuel : Nat) : Option (Nat × Nat) :=
  timerRun f fuel 0 0

/-- Number of polls in `[i, j)` at which the loop ticks, i.e. reads
`is_working` true and `is_on_break` false. -/
def ticks (f : Nat → Bool × Bool) (i j : Nat) : Nat :=
  (List.range' i (j - i)).countP (fun p => (f p).1 && !(f p).2)

theorem pad2_eq_twoDigit : ∀ n < 100, pad2 n = twoDigit n := by decide

theorem handle_attendance_state (net : NetOracle) (s : TrayState) :
    (handle_attendance net s).state =
      { s with is_working := !s.is_working,
               attendanceTitle := if !s.is_working then "業務終了" else "業務開始",
               breakEnabled := !s.is_working,
               trayTitle := if !s.is_working then s.trayTitle else "" } := by
  cases h : s.is_working <;> simp [handle_attendance, h]

theorem handle_break_time_state (net : NetOracle) (s : TrayState) :
    (handle_break_time net s).state =
      { s with is_on_break := !s.is_on_break,
               breakTitle := if !s.is_on_break then "休憩解除" else "休憩",
               attendanceEnabled := s.is_on_break,
               trayTitle := if !s.is_on_break then "休憩中" else s.trayTitle } := by
  cases h : s.is_on_break <;> simp [handle_break_time, h]

theorem send_req_requests (net : NetOracle) (statu : String) :
    (send_req net statu).requests =
      [{ method := "POST", url := webhookUrl,
         form := [("name", "多田"), ("status", statu)] }] := by
  simp only [send_req]
  split
  · rfl
  · split <;> rfl

theorem format_duration_eq_specHhMmSs {n : Nat} (h : n < 86400) :
    format_duration n = specHhMmSs n := by
  have hh : n / 3600 < 24 := Nat.div_lt_of_lt_mul (by omega)
  have hm : n % 3600 / 60 < 60 := Nat.div_lt_of_lt_mul (Nat.mod_lt _ (by omega))
  have hs : n % 60 < 60 := Nat.mod_lt _ (by omega)
  show pad2 (n / 3600) ++ ":" ++ pad2 (n % 3600 / 60) ++ ":" ++ pad2 (n % 60) =
    twoDigit (n / 3600) ++ ":" ++ twoDigit (n % 3600 / 60) ++ ":" ++ twoDigit (n % 60)
  rw [pad2_eq_twoDigit _ (by omega), pad2_eq_twoDigit _ (by omega),
    pad2_eq_twoDigit _ (by omega)]

theorem reachable_invariant {s : TrayState} (h : Reachable s) :
    s.breakEnabled = s.is_working ∧ s.attendanceEnabled = !s.is_on_break ∧
    (s.is_on_break = true → s.is_working = true) := by
  induction h with
  | init => decide
  | @attendanceClick s net hr he ih =>
    obtain ⟨h1, h2, h3⟩ := ih
    have h4 := h2
    rw [he] at h4
    have hb : s.is_on_break = false := by
      cases hv : s.is_on_break
      · rfl
      · rw [hv] at h4
        exact absurd h4 (by decide)
    rw [handle_attendance_state]
    refine ⟨rfl, ?_, ?_⟩
    · exact h2
    · intro hx
      rw [hb] at hx
      exact absurd hx (by decide)
  | @breakClick s net hr he ih =>
    obtain ⟨h1, h2, h3⟩ := ih
    rw [handle_break_time_state]
    refine ⟨h1, ?_, ?_⟩
    · exact (Bool.not_not s.is_on_break).symm
    · intro hx
      exact Eq.trans (Eq.symm h1) he

/-- C1: in every state reachable from the initial state (both flags false,
break item disabled) by clicks on enabled menu items, the break item is
disabled whenever `is_working` is false, the attendance item is disabled
whenever `is_on_break` is true, and consequently `is_on_break` implies
`is_working`. -/
theorem menu_enablement_mutual_exclusion (s : TrayState) (h : Reachable s) :
    (s.is_working = false → s.breakEnabled = false) ∧
    (s.is_on_break = true → s.attendanceEnabled = false) ∧
    (s.is_on_break = true → s.is_working = true) := by
  obtain ⟨h1, h2, h3⟩ := reachable_invariant h
  refine ⟨fun hw => ?_, fun hb => ?_, h3⟩
  · rw [h1, hw]
  · rw [h2, hb]
    rfl

/-- Witness for C1 at the concrete initial state. -/
theorem menu_enablement_mutual_exclusion_witness :
    (initState.is_working = false → initState.breakEnabled = false) ∧
    (initState.is_on_break = true → initState.attendanceEnabled = false) ∧
    (initState.is_on_break = true → initState.is_working = true) :=
  menu_enablement_mutual_exclusion initState Reachable.init

/-- C3: the attendance toggle is an involution on the working flag — one
application of `handle_attendance` negates `is_working`, and two
applications (under any network behaviours) restore it. -/
theorem attendance_toggle_involution (net net2 : NetOracle) (s : TrayState) :
    (handle_attendance net s).state.is_working = !s.is_working ∧
    (handle_attendance net2 (handle_attendance net s).state).state.is_working
      = s.is_working := by
  constructor
  · rw [handle_attendance_state]
  · rw [handle_attendance_state, handle_attendance_state]
    simp

/-- C9: frame property — `handle_attendance` never writes `is_on_break`
and `handle_break_time` never writes `is_working`. -/
theorem handlers_flag_frame (net : NetOracle) (s : TrayState) :
    (handle_attendance net s).state.is_on_break = s.is_on_break ∧
    (handle_break_time net s).state.is_working = s.is_working := by
  constructor
  · rw [handle_attendance_state]
  · rw [handle_break_time_state]

/-- C7: error atomicity of notification — the tray state (flags included)
after either handler is the same under every network behaviour, failing or
succeeding, because both flags are stored before `send_req` is called and
its `Result` is bound to `_` and discarded; and the single request issued
does not depend on the outcome either (no retry). -/
theorem notification_error_atomicity (net net2 : NetOracle) (s : TrayState)
    (statu : String) :
    (handle_attendance net s).state = (handle_attendance net2 s).state ∧
    (handle_break_time net s).state = (handle_break_time net2 s).state ∧
    (send_req net statu).requests = (send_req net2 statu).requests := by
  refine ⟨?_, ?_, ?_⟩
  · rw [handle_attendance_state, handle_attendance_state]
  · rw [handle_break_time_state, handle_break_time_state]
  · rw [send_req_requests, send_req_requests]

/-- C2: `format_duration` is correct at the spec's boundary inputs and, for
every second count below 86400, produces the zero-padded two-digit
`hh:mm:ss` decomposition. -/
theorem format_duration_boundary_and_hhmmss :
    format_duration 0 = "00:00:00" ∧
    format_duration 3661 = "01:01:01" ∧
    format_duration 86399 = "23:59:59" ∧
    ∀ n : Nat, n < 86400 → format_duration n = specHhMmSs n := by
  refine ⟨by decide, by decide, by decide, fun n h => format_duration_eq_specHhMmSs h⟩

/-- Witness for C2 at the concrete input 45296 = 12h34m56s. -/
theorem format_duration_boundary_and_hhmmss_witness :
    format_duration 45296 = specHhMmSs 45296 :=
  format_duration_boundary_and_hhmmss.2.2.2 45296 (by decide)

/-- C10: `format_duration` is total and does not wrap hours at 24 — hours
are `total / 3600` printed in full (90000s renders as "25:00:00", 360000s
as "100:00:00"), while minutes and seconds always lie in [0, 59] and render
as exactly two digits. -/
theorem format_duration_total_hours_unbounded :
    format_duration 90000 = "25:00:00" ∧
    format_duration 360000 = "100:00:00" ∧
    ∀ n : Nat, n % 3600 / 60 < 60 ∧ n % 60 < 60 ∧
      format_duration n =
        pad2 (n / 3600) ++ ":" ++ twoDigit (n % 3600 / 60) ++ ":" ++ twoDigit (n % 60) := by
  refine ⟨by decide, by decide, fun n => ?_⟩
  have hm : n % 3600 / 60 < 60 := Nat.div_lt_of_lt_mul (Nat.mod_lt _ (by omega))
  have hs : n % 60 < 60 := Nat.mod_lt _ (by omega)
  refine ⟨hm, hs, ?_⟩
  show pad2 (n / 3600) ++ ":" ++ pad2 (n % 3600 / 60) ++ ":" ++ pad2 (n % 60) = _
  rw [pad2_eq_twoDigit (n % 3600 / 60) (by omega), pad2_eq_twoDigit (n % 60) (by omega)]

theorem send_req_ok_effects (net : NetOracle) (statu : String)
    (response : HttpResponse) (body : String)
    (h1 : net.send { method := "POST", url := webhookUrl,
                     form := [("name", "多田"), ("status", statu)] } = Except.ok response)
    (h2 : net.text response = Except.ok body) :
    (send_req net statu).stdoutLines = ["Response: " ++ body] ∧
    (send_req net statu).result = Except.ok () := by
  simp only [send_req]
  rw [h1]
  dsimp only
  rw [h2]
  exact ⟨rfl, rfl⟩

theorem handle_attendance_requests (net : NetOracle) (s : TrayState) :
    (handle_attendance net s).requests =
      (send_req net (if !s.is_working then "業務 開始" else "業務 終了")).requests := by
  cases h : s.is_working <;> simp [handle_attendance, h]

theorem handle_break_time_requests (net : NetOracle) (s : TrayState) :
    (handle_break_time net s).requests =
      (send_req net (if !s.is_on_break then "休憩 開始" else "休憩 終了")).requests := by
  cases h : s.is_on_break <;> simp [handle_break_time, h]

/-- C6: every `send_req` call issues exactly one POST, to the single fixed
webhook URL, with a form body of exactly the two fields `name` and
`status`; on success the response body is printed verbatim (never parsed);
and each handler invocation fires exactly one request (never retried). -/
theorem notifier_single_fixed_post :
    (∀ (net : NetOracle) (statu : String),
        (send_req net statu).requests =
          [{ method := "POST", url := webhookUrl,
             form := [("name", "多田"), ("status", statu)] }]) ∧
    (∀ (net : NetOracle) (statu : String) (response : HttpResponse) (body : String),
        net.send { method := "POST", url := webhookUrl,
                   form := [("name", "多田"), ("status", statu)] } = Except.ok response →
        net.text response = Except.ok body →
        (send_req net statu).stdoutLines = ["Response: " ++ body] ∧
        (send_req net statu).result = Except.ok ()) ∧
    (∀ (net : NetOracle) (s : TrayState),
        (handle_attendance net s).requests.length = 1 ∧
        (handle_break_time net s).requests.length = 1) := by
  refine ⟨send_req_requests, send_req_ok_effects, fun net s => ⟨?_, ?_⟩⟩
  · rw [handle_attendance_requests, send_req_requests]
    rfl
  · rw [handle_break_time_requests, send_req_requests]
    rfl

/-- Witness for C6 with a concrete oracle that acknowledges with "ack". -/
theorem notifier_single_fixed_post_witness :
    (send_req ⟨fun _ => Except.ok ⟨"ack"⟩, fun r => Except.ok r.raw⟩
        "業務 開始").stdoutLines = ["Response: " ++ "ack"] ∧
    (send_req ⟨fun _ => Except.ok ⟨"ack"⟩, fun r => Except.ok r.raw⟩
        "業務 開始").result = Except.ok () :=
  notifier_single_fixed_post.2.1 _ "業務 開始" ⟨"ack"⟩ "ack" rfl rfl

/-- Counterexample to C5: the iteration taken while `is_on_break` is true
(with `is_working` still true) does not exit, yet re-polls without reaching
the `thread::sleep` call — the `continue` sits before the sleep. -/
theorem timer_break_iteration_skips_sleep_cex :
    ¬ (∀ (w b : Bool) (t : Nat) (slept : Bool) (t2 : Nat) (u : Option String),
        timerIter w b t = TimerOutcome.polledAgain slept t2 u → slept = true) := by
  intro h
  exact absurd (h true true 0 false 0 none rfl) (by decide)

/-- Amended C5: a non-exiting iteration sleeps for one second exactly when
`is_on_break` is false; while `is_on_break` is true the loop `continue`s and
re-polls the flags immediately, without sleeping. -/
theorem timer_sleep_iff_not_on_break (w b : Bool) (t : Nat) (slept : Bool)
    (t2 : Nat) (u : Option String)
    (h : timerIter w b t = TimerOutcome.polledAgain slept t2 u) :
    slept = true ↔ b = false := by
  cases w <;> cases b <;> simp_all [timerIter]

/-- Witness for the amended C5, on the break-iteration instance. -/
theorem timer_sleep_iff_not_on_break_witness :
    timerIter true true 5 = TimerOutcome.polledAgain false 5 none ∧
    ((false = true) ↔ ((true : Bool) = false)) :=
  ⟨rfl, timer_sleep_iff_not_on_break true true 5 false 5 none rfl⟩

theorem timerRun_exit_not_working (f : Nat → Bool × Bool) :
    ∀ fuel i t j tj, timerRun f fuel i t = some (j, tj) → (f j).1 = false := by
  intro fuel
  induction fuel with
  | zero =>
    intro i t j tj h
    exact absurd h (by simp [timerRun])
  | succ n ih =>
    intro i t j tj h
    by_cases hw : (f i).1 = false
    · simp [timerRun, hw] at h
      exact h.1 ▸ hw
    · by_cases hb : (f i).2 = true
      · simp [timerRun, hw, hb] at h
        exact ih (i + 1) t j tj h
      · simp [timerRun, hw, hb] at h
        exact ih (i + 1) (t + 1) j tj h

theorem timerRun_exits_by (f : Nat → Bool × Bool) :
    ∀ fuel i t k, i ≤ k → (f k).1 = false → k - i < fuel →
      ∃ j tj, i ≤ j ∧ j ≤ k ∧ timerRun f fuel i t = some (j, tj) := by
  intro fuel
  induction fuel with
  | zero =>
    intro i t k h1 h2 h3
    omega
  | succ n ih =>
    intro i t k hik hk hfuel
    by_cases hw : (f i).1 = false
    · exact ⟨i, t, Nat.le_refl i, hik, by simp [timerRun, hw]⟩
    · have hlt : i < k := by
        cases Nat.eq_or_lt_of_le hik with
        | inl heq =>
          rw [← heq] at hk
          exact absurd hk hw
        | inr h => exact h
      by_cases hb : (f i).2 = true
      · obtain ⟨j, tj, ha, hb2, hc⟩ := ih (i + 1) t k (by omega) hk (by omega)
        exact ⟨j, tj, by omega, hb2, by simp [timerRun, hw, hb, hc]⟩
      · obtain ⟨j, tj, ha, hb2, hc⟩ := ih (i + 1) (t + 1) k (by omega) hk (by omega)
        exact ⟨j, tj, by omega, hb2, by simp [timerRun, hw, hb, hc]⟩

/-- C4: cooperative termination of the timer loop — whenever the loop
breaks out, the `is_working` value it read at that poll was false (so the
loop never exits while the flag stays true), and if `is_working` reads
false at poll `k` then the loop has exited by poll `k` (given fuel to reach
it). -/
theorem timer_cooperative_termination :
    (∀ (f : Nat → Bool × Bool) (fuel i t j tj : Nat),
        timerRun f fuel i t = some (j, tj) → (f j).1 = false) ∧
    (∀ (f : Nat → Bool × Bool) (k fuel : Nat), (f k).1 = false → k < fuel →
        ∃ j tj, j ≤ k ∧ start_timer f fuel = some (j, tj)) := by
  constructor
  · intro f fuel i t j tj h
    exact timerRun_exit_not_working f fuel i t j tj h
  · intro f k fuel hk hfuel
    obtain ⟨j, tj, h1, h2, h3⟩ :=
      timerRun_exits_by f fuel 0 0 k (Nat.zero_le k) hk (by omega)
    exact ⟨j, tj, h2, h3⟩

/-- Witness for C4 on a schedule that works for two polls then stops. -/
theorem timer_cooperative_termination_witness :
    ((fun i => (decide (i < 2), false)) 2).1 = false ∧
    (∃ j tj, j ≤ 2 ∧
        start_timer (fun i => (decide (i < 2), false)) 5 = some (j, tj)) :=
  ⟨timer_cooperative_termination.1 (fun i => (decide (i < 2), false)) 5 0 0 2 2
      (by decide),
   timer_cooperative_termination.2 (fun i => (decide (i < 2), false)) 2 5
      (by decide) (by decide)⟩

theorem timerRun_le (f : Nat → Bool × Bool) :
    ∀ fuel i t j tj, timerRun f fuel i t = some (j, tj) → i ≤ j := by
  intro fuel
  induction fuel with
  | zero =>
    intro i t j tj h
    exact absurd h (by simp [timerRun])
  | succ n ih =>
    intro i t j tj h
    by_cases hw : (f i).1 = false
    · simp [timerRun, hw] at h
      omega
    · by_cases hb : (f i).2 = true
      · simp [timerRun, hw, hb] at h
        have := ih (i + 1) t j tj h
        omega
      · simp [timerRun, hw, hb] at h
        have := ih (i + 1) (t + 1) j tj h
        omega

theorem ticks_self (f : Nat → Bool × Bool) (i : Nat) : ticks f i i = 0 := by
  simp [ticks]

theorem ticks_step (f : Nat → Bool × Bool) {i j : Nat} (h : i < j) :
    ticks f i j = (if (f i).1 && !(f i).2 then 1 else 0) + ticks f (i + 1) j := by
  unfold ticks
  have h2 : j - i = (j - (i + 1)) + 1 := by omega
  rw [h2, List.range'_succ, List.countP_cons, Nat.add_comm]

theorem timerRun_time_ticks (f : Nat → Bool × Bool) :
    ∀ fuel i t j tj, timerRun f fuel i t = some (j, tj) → tj = t + ticks f i j := by
  intro fuel
  induction fuel with
  | zero =>
    intro i t j tj h
    exact absurd h (by simp [timerRun])
  | succ n ih =>
    intro i t j tj h
    by_cases hw : (f i).1 = false
    · simp [timerRun, hw] at h
      obtain ⟨h1, h2⟩ := h
      subst h1
      subst h2
      simp [ticks_self]
    · have hw2 : (f i).1 = true := by
        cases hv : (f i).1
        · exact absurd hv hw
        · rfl
      by_cases hb : (f i).2 = true
      · simp [timerRun, hw, hb] at h
        have hrec := ih (i + 1) t j tj h
        have hij := timerRun_le f n (i + 1) t j tj h
        have hpred : ((f i).1 && !(f i).2) = false := by
          rw [hw2, hb]
          rfl
        rw [ticks_step f (show i < j by omega), hpred]
        simp [hrec]
      · have hb2 : (f i).2 = false := by
          cases hv : (f i).2
          · rfl
          · exact absurd hv hb
        simp [timerRun, hw, hb] at h
        have hrec := ih (i + 1) (t + 1) j tj h
        have hij := timerRun_le f n (i + 1) (t + 1) j tj h
        have hpred : ((f i).1 && !(f i).2) = true := by
          rw [hw2, hb2]
          rfl
        rw [ticks_step f (show i < j by omega), hpred]
        simp [hrec]
        omega

/-- C8: the elapsed counter is per-session and excludes breaks — an
iteration increments the counter and sets the formatted title exactly when
`is_working` is true and `is_on_break` is false (on break it leaves both
untouched), and a run spawned by `start_timer` that exits at poll `j`
displays exactly the number of non-break working polls since its start at
zero. -/
theorem timer_counts_only_nonbreak_seconds :
    (∀ (w b : Bool) (t : Nat),
        (b = true → w = true →
          timerIter w b t = TimerOutcome.polledAgain false t none) ∧
        (b = false → w = true →
          timerIter w b t =
            TimerOutcome.polledAgain true (t + 1) (some (format_duration (t + 1))))) ∧
    (∀ (f : Nat → Bool × Bool) (fuel j tj : Nat),
        start_timer f fuel = some (j, tj) → tj = ticks f 0 j) := by
  constructor
  · intro w b t
    refine ⟨fun hb hw => ?_, fun hb hw => ?_⟩ <;> subst hb <;> subst hw <;> rfl
  · intro f fuel j tj h
    have := timerRun_time_ticks f fuel 0 0 j tj h
    omega

/-- Witness for C8 on a schedule alternating work and break for four polls:
the displayed count is the 2 non-break working polls, not 4. -/
theorem timer_counts_only_nonbreak_seconds_witness :
    timerIter true true 7 = TimerOutcome.polledAgain false 7 none ∧
    (2 : Nat) = ticks (fun i => (decide (i < 4), decide (i % 2 = 1))) 0 4 :=
  ⟨(timer_counts_only_nonbreak_seconds.1 true true 7).1 rfl rfl,
   timer_counts_only_nonbreak_seconds.2
      (fun i => (decide (i < 4), decide (i % 2 = 1))) 10 4 2 (by decide)⟩
